import Mathlib

/-!
Verification of the music player module of the pomop repository
(`src/www/modules/music.js`, class `MusicPlayer`).

Modelling conventions for the shallow embedding:

* JS numbers are rationals (`ℚ`); `currentTrackIndex` is an `Int` because the
  code uses `-1` as the "no track selected" sentinel.
* `Math.random()` and `Date.now()` are nondeterministic inputs: each call site
  that consumes them takes the drawn value as an explicit argument
  (`now : Nat`, `rand : ℚ` with the intended range `0 ≤ rand < 1`).
* The async file read in `addTrack` (`FileReader.readAsDataURL`) is an oracle
  argument `readResult : Except String String`; the error case carries the
  underlying reader error's message (which the code never consults).
* `localStorage` is an association list from string keys to parsed JSON
  values. `JSON.stringify` followed by `JSON.parse` is the identity on the
  JSON trees the module stores, so the store holds `Json` trees and
  serialisation is modelled by the `encode`/`decode` pair below. Whether a
  `setItem` throws (quota exceeded) is an oracle `Bool` argument.
* Events delivered synchronously by `emit` are appended to an `events` log in
  emission order. The handler attached with `.catch` in `playTrack` runs as a
  microtask after the synchronous body, hence its `error` event is appended
  after the `trackchange` event. The DOM-event bridges (`play`, `pause`,
  `timeupdate`, `loadedmetadata`, `ended`) are asynchronous and are not part
  of the synchronous log; the `isPlaying` flag mirrors the audio element's
  paused/playing status directly.
-/

namespace Pomop

/-- Source representation of a track: a filesystem path (Electron mode,
`path: file.path`, line 81) or an embedded data URI (web mode,
`data: e.target.result`, line 100). Exactly one is present per track. -/
inductive Source where
  | path (p : String)
  | data (d : String)
  deriving DecidableEq

/-- Value assigned to `audio.src` by `playTrack` (lines 146-150):
`track.path` if present, else `track.data`. -/
def Source.src : Source → String
  | Source.path p => p
  | Source.data d => d

/-- Track record as constructed by `addTrack` (lines 77-83 / 96-102). -/
structure Track where
  id : ℚ
  name : String
  fileName : String
  source : Source
  duration : ℚ
  deriving DecidableEq

/-- Parsed JSON value, the contents of a `localStorage` slot. -/
inductive Json where
  | null
  | num (q : ℚ)
  | str (s : String)
  | arr (elems : List Json)
  | obj (fields : List (String × Json))

/-- Repeat mode (`this.repeat`, line 12): one of `'none'`, `'one'`, `'all'`. -/
inductive RepeatMode where
  | none
  | one
  | all
  deriving DecidableEq

/-- Synchronously emitted events (`this.emit(...)` call sites). -/
inductive Event where
  | trackadded (track : Track)
  | trackremoved (trackId : ℚ)
  | trackchange (track : Track) (index : Nat)
  | stop
  | error (message : String)
  | playlistcleared
  deriving DecidableEq

/-- State of a `MusicPlayer` instance together with its `localStorage` and the
log of synchronously emitted events. -/
structure MusicPlayer where
  playlist : List Track
  currentTrackIndex : Int
  audioSrc : Option String
  audioCurrentTime : ℚ
  isPlaying : Bool
  shuffle : Bool
  repeatMode : RepeatMode
  events : List Event
  store : List (String × Json)

/-- File handle passed to `addTrack`: `name`, and optionally `path`
(presence of `path` selects the Electron branch, line 76). -/
structure FileHandle where
  name : String
  path : Option String

/-- localStorage.getItem: first binding of the key, if any. -/
def getItem (store : List (String × Json)) (k : String) : Option Json :=
  match store with
  | [] => Option.none
  | (k₂, v) :: rest => if k₂ = k then some v else getItem rest k

/-- localStorage.setItem: replace the binding of the key, or append it. -/
def setItem (store : List (String × Json)) (k : String) (v : Json) :
    List (String × Json) :=
  match store with
  | [] => [(k, v)]
  | (k₂, v₂) :: rest =>
      if k₂ = k then (k, v) :: rest else (k₂, v₂) :: setItem rest k v

/-- Model of the regex replace `name.replace(/\.[^/.]+$/, "")` (lines 79/98):
if the string ends in a dot followed by one or more characters none of which
is a slash or a dot, that suffix is removed; otherwise the string is kept. -/
def stripExt (s : String) : String :=
  let rev := s.toList.reverse
  let stem := rev.takeWhile (fun c => !(c == '.' || c == '/'))
  match rev.drop stem.length with
  | '.' :: rest => if stem.length = 0 then s else String.mk rest.reverse
  | _ => s

/-- JSON.stringify of one track object, field order as in the object
literals at lines 77-83 / 96-102. -/
def encodeTrack (t : Track) : Json :=
  Json.obj ([("id", Json.num t.id), ("name", Json.str t.name),
      ("fileName", Json.str t.fileName)]
    ++ (match t.source with
        | Source.path p => [("path", Json.str p)]
        | Source.data d => [("data", Json.str d)])
    ++ [("duration", Json.num t.duration)])

/-- JSON.stringify of the playlist array (line 276). -/
def encodePlaylist (l : List Track) : Json :=
  Json.arr (l.map encodeTrack)

/-- Metadata-only projection written on the fallback path (lines 281-286):
only `id`, `name`, `fileName` are kept. -/
def encodeMeta (l : List Track) : Json :=
  Json.arr (l.map fun t =>
    Json.obj [("id", Json.num t.id), ("name", Json.str t.name),
      ("fileName", Json.str t.fileName)])

/-- Field lookup on a parsed JSON object. -/
def jsonGet (j : Json) (k : String) : Option Json :=
  match j with
  | Json.obj fields =>
      (fields.find? (fun kv => kv.1 == k)).map Prod.snd
  | _ => Option.none

/-- Reading one element of the parsed playlist array back into a track
record (the code does no validation after `JSON.parse`; this decoder reads
the fields the module itself writes and uses). -/
def decodeTrack (j : Json) : Option Track :=
  match jsonGet j ("id"), jsonGet j ("name"), jsonGet j ("fileName") with
  | some (Json.num i), some (Json.str n), some (Json.str fn) =>
      let src : Option Source :=
        match jsonGet j ("path") with
        | some (Json.str p) => some (Source.path p)
        | _ =>
            match jsonGet j ("data") with
            | some (Json.str d) => some (Source.data d)
            | _ => Option.none
      match src, jsonGet j ("duration") with
      | some s, some (Json.num dur) =>
          some { id := i, name := n, fileName := fn, source := s,
                 duration := dur }
      | _, _ => Option.none
  | _, _, _ => Option.none

/-- Decode every element of the stored array. -/
def decodeTracks : List Json → Option (List Track)
  | [] => some []
  | j :: rest =>
      match decodeTrack j, decodeTracks rest with
      | some t, some ts => some (t :: ts)
      | _, _ => Option.none

/-- JSON.parse of a stored playlist value. -/
def decodePlaylist (j : Json) : Option (List Track) :=
  match j with
  | Json.arr elems => decodeTracks elems
  | _ => Option.none

/-- The primary persistence key `'pomop-music-playlist'` (lines 276, 296). -/
def primaryKey : String := "pomop-music-playlist"

/-- The fallback persistence key `'pomop-music-playlist-meta'` (line 286). -/
def metaKey : String := "pomop-music-playlist-meta"

namespace MusicPlayer

/-- emit (lines 30-34): synchronous notification, modelled as appending the
event to the log. -/
def emit (p : MusicPlayer) (e : Event) : MusicPlayer :=
  { p with events := p.events ++ [e] }

/-- savePlaylist (lines 273-291). `primaryOk` tells whether the full write
succeeds; if it throws (quota exceeded) the metadata-only projection is
written under the secondary key, `metaOk` telling whether that write in turn
succeeds; a second failure is swallowed. -/
def savePlaylist (p : MusicPlayer) (primaryOk metaOk : Bool) : MusicPlayer :=
  if primaryOk then
    { p with store := setItem p.store primaryKey (encodePlaylist p.playlist) }
  else if metaOk then
    { p with store := setItem p.store metaKey (encodeMeta p.playlist) }
  else p

/-- loadPlaylist (lines 294-303): read the primary key only; on a present,
decodable value replace the playlist; otherwise (missing key, or a value the
module cannot interpret — the catch path) leave the playlist as it is. -/
def loadPlaylist (p : MusicPlayer) : MusicPlayer :=
  match getItem p.store primaryKey with
  | some j =>
      match decodePlaylist j with
      | some l => { p with playlist := l }
      | Option.none => p
  | Option.none => p

/-- Constructor (lines 6-20): default fields, then `loadPlaylist()`. The
audio element starts paused at time 0 with no source. -/
def construct (store : List (String × Json)) : MusicPlayer :=
  loadPlaylist
    { playlist := [], currentTrackIndex := -1, audioSrc := Option.none,
      audioCurrentTime := 0, isPlaying := false, shuffle := false,
      repeatMode := RepeatMode.none, events := [], store := store }

/-- addTrack (lines 73-116). `now`/`rand` are the `Date.now()` and
`Math.random()` draws; `readResult` is the outcome of the FileReader read
(only consulted on the web branch); `primaryOk`/`metaOk` feed `savePlaylist`.
Returns the new state and the settled promise outcome. On a failed read the
code rejects with `new Error('Failed to read file')`, ignoring the
underlying reader error. -/
def addTrack (p : MusicPlayer) (file : FileHandle) (now : Nat) (rand : ℚ)
    (readResult : Except String String) (primaryOk metaOk : Bool) :
    MusicPlayer × Except String Track :=
  match file.path with
  | some fp =>
      let track : Track :=
        { id := (now : ℚ) + rand, name := stripExt file.name,
          fileName := file.name, source := Source.path fp, duration := 0 }
      let p₂ := { p with playlist := p.playlist ++ [track] }
      let p₃ := savePlaylist p₂ primaryOk metaOk
      (emit p₃ (Event.trackadded track), Except.ok track)
  | Option.none =>
      match readResult with
      | Except.ok dataUrl =>
          let track : Track :=
            { id := (now : ℚ) + rand, name := stripExt file.name,
              fileName := file.name, source := Source.data dataUrl,
              duration := 0 }
          let p₂ := { p with playlist := p.playlist ++ [track] }
          let p₃ := savePlaylist p₂ primaryOk metaOk
          (emit p₃ (Event.trackadded track), Except.ok track)
      | Except.error _ => (p, Except.error ("Failed to read file"))

/-- Array.prototype.findIndex: index of the first element satisfying the
predicate, -1 if none. -/
def findIndex (pred : Track → Bool) : List Track → Int
  | [] => -1
  | t :: ts =>
      if pred t then 0
      else
        let r := findIndex pred ts
        if r = -1 then -1 else r + 1

/-- stop (lines 181-186): pause the audio, rewind to 0, clear the cursor to
the -1 sentinel, emit `stop`. -/
def stop (p : MusicPlayer) : MusicPlayer :=
  emit { p with isPlaying := false, audioCurrentTime := 0,
                currentTrackIndex := -1 }
    Event.stop

/-- removeTrack (lines 119-137): find the track by id (no-op when absent);
stop first when it is the current one; splice it out; decrement the cursor
when it pointed past the removed index; persist; emit `trackremoved`. -/
def removeTrack (p : MusicPlayer) (trackId : ℚ) (primaryOk metaOk : Bool) :
    MusicPlayer :=
  let index := findIndex (fun t => decide (t.id = trackId)) p.playlist
  if index = -1 then p
  else
    let p₂ := if index = p.currentTrackIndex then stop p else p
    let p₃ := { p₂ with playlist := p₂.playlist.eraseIdx index.toNat }
    let p₄ :=
      if p₃.currentTrackIndex > index then
        { p₃ with currentTrackIndex := p₃.currentTrackIndex - 1 }
      else p₃
    emit (savePlaylist p₄ primaryOk metaOk) (Event.trackremoved trackId)

/-- Events produced by the rejection handler attached with `.catch` in
playTrack (lines 152-155); it runs as a microtask after the synchronous
body, i.e. after `trackchange` was emitted. `playErr` is the message of the
rejection of `audio.play()`, or `none` when playback starts. -/
def playOutcomeEvents : Option String → List Event
  | some msg => [Event.error ("Failed to play track: " ++ msg)]
  | Option.none => []

/-- playTrack (lines 140-158): no-op outside `[0, length)`; otherwise set
the cursor, assign the source, start playback (emitting `error` on
rejection, without rolling back cursor or source), and emit `trackchange`
synchronously. -/
def playTrack (p : MusicPlayer) (index : Int) (playErr : Option String) :
    MusicPlayer :=
  if index < 0 ∨ (p.playlist.length : Int) ≤ index then p
  else
    match p.playlist[index.toNat]? with
    | some track =>
        { p with currentTrackIndex := index,
                 audioSrc := some track.source.src,
                 isPlaying := playErr.isNone,
                 events := p.events ++ [Event.trackchange track index.toNat]
                   ++ playOutcomeEvents playErr }
    | Option.none => p

/-- next (lines 189-209): no-op on an empty playlist; under shuffle play a
random index (`randIndex` is the `Math.floor(Math.random() * length)`
draw); otherwise advance the cursor, wrapping to 0 under repeat-all and
calling `stop()` otherwise on overflow. -/
def next (p : MusicPlayer) (randIndex : Nat) (playErr : Option String) :
    MusicPlayer :=
  if p.playlist.length = 0 then p
  else if p.shuffle then playTrack p (randIndex : Int) playErr
  else
    let nextIndex := p.currentTrackIndex + 1
    if (p.playlist.length : Int) ≤ nextIndex then
      if p.repeatMode = RepeatMode.all then playTrack p 0 playErr
      else stop p
    else playTrack p nextIndex playErr

/-- previous (lines 212-231): no-op on an empty playlist; with more than 3
seconds elapsed just rewind; otherwise decrement the cursor, wrapping to
the last index under repeat-all and clamping to 0 otherwise on underflow. -/
def previous (p : MusicPlayer) (playErr : Option String) : MusicPlayer :=
  if p.playlist.length = 0 then p
  else if 3 < p.audioCurrentTime then { p with audioCurrentTime := 0 }
  else
    let prevIndex := p.currentTrackIndex - 1
    let prevIndex₂ :=
      if prevIndex < 0 then
        if p.repeatMode = RepeatMode.all then (p.playlist.length : Int) - 1
        else 0
      else prevIndex
    playTrack p prevIndex₂ playErr

end MusicPlayer

/-- Model of JS array references for the aliasing behaviour of
`getPlaylist`: a heap of array cells holding track lists. -/
structure Heap where
  cells : List (List Track)

namespace Heap

/-- Dereference an array reference. -/
def read (h : Heap) (r : Nat) : List Track :=
  h.cells.getD r []

/-- Allocate a fresh array, returning the new heap and the fresh
reference. -/
def alloc (h : Heap) (v : List Track) : Heap × Nat :=
  ({ cells := h.cells ++ [v] }, h.cells.length)

/-- Mutate the array behind a reference in place. -/
def write (h : Heap) (r : Nat) (v : List Track) : Heap :=
  { cells := h.cells.set r v }

/-- getPlaylist (lines 268-270): `return [...this.playlist]` — allocate a
fresh array containing the same elements as the internal one and return a
reference to it. -/
def getPlaylist (h : Heap) (internalRef : Nat) : Heap × Nat :=
  alloc h (read h internalRef)

end Heap

/-- Sample path-mode file handle. -/
def fileA : FileHandle := { name := "a.mp3", path := some ("/music/a.mp3") }

/-- Sample web-mode file handle (no `path` property). -/
def fileB : FileHandle := { name := "b.mp3", path := Option.none }

/-- A player constructed over an empty localStorage. -/
def emptyPlayer : MusicPlayer := MusicPlayer.construct []

/-- Sample track. -/
def trackA : Track :=
  { id := 1, name := "a", fileName := "a.mp3",
    source := Source.path ("/music/a.mp3"), duration := 0 }

/-- Sample track. -/
def trackB : Track :=
  { id := 2, name := "b", fileName := "b.mp3",
    source := Source.data ("data:audio/mpeg;base64,AAAA"), duration := 0 }

/-- A two-track player state used to instantiate theorems. -/
def samplePlayer : MusicPlayer :=
  { playlist := [trackA, trackB], currentTrackIndex := 1,
    audioSrc := some trackB.source.src, audioCurrentTime := 2,
    isPlaying := true, shuffle := false, repeatMode := RepeatMode.all,
    events := [], store := [] }

end Pomop

namespace Pomop

/-! Helper lemmas shared by the claim theorems. -/

theorem savePlaylist_playlist (p : MusicPlayer) (a b : Bool) :
    (p.savePlaylist a b).playlist = p.playlist := by
  unfold MusicPlayer.savePlaylist
  split_ifs <;> rfl

theorem savePlaylist_currentTrackIndex (p : MusicPlayer) (a b : Bool) :
    (p.savePlaylist a b).currentTrackIndex = p.currentTrackIndex := by
  unfold MusicPlayer.savePlaylist
  split_ifs <;> rfl

theorem savePlaylist_isPlaying (p : MusicPlayer) (a b : Bool) :
    (p.savePlaylist a b).isPlaying = p.isPlaying := by
  unfold MusicPlayer.savePlaylist
  split_ifs <;> rfl

theorem savePlaylist_events (p : MusicPlayer) (a b : Bool) :
    (p.savePlaylist a b).events = p.events := by
  unfold MusicPlayer.savePlaylist
  split_ifs <;> rfl

theorem findIndex_get_of_nodup (l : List Track) :
    ∀ (i : Nat) (hi : i < l.length), (l.map Track.id).Nodup →
      MusicPlayer.findIndex (fun t => decide (t.id = (l.get ⟨i, hi⟩).id)) l
        = (i : Int) := by
  induction l with
  | nil => intro i hi _; simp at hi
  | cons t ts ih =>
      intro i hi hnd
      simp only [List.map_cons, List.nodup_cons, List.mem_map] at hnd
      obtain ⟨hnotin, hnd₂⟩ := hnd
      cases i with
      | zero => simp [MusicPlayer.findIndex]
      | succ n =>
          have hn : n < ts.length := Nat.lt_of_succ_lt_succ hi
          have hget : ((t :: ts).get ⟨n + 1, hi⟩) = ts.get ⟨n, hn⟩ := rfl
          have hne : ¬ (t.id = (ts.get ⟨n, hn⟩).id) := by
            intro hEq
            exact hnotin ⟨ts.get ⟨n, hn⟩, List.get_mem ts n hn, hEq.symm⟩
          have hrec := ih n hn hnd₂
          simp only [MusicPlayer.findIndex, hget, hne, decide_False,
            Bool.false_eq_true, if_false, hrec]
          have hne₂ : ¬ ((n : Int) = -1) := by omega
          rw [if_neg hne₂]
          push_cast
          ring

theorem getItem_setItem_self (s : List (String × Json)) (k : String)
    (v : Json) : getItem (setItem s k v) k = some v := by
  induction s with
  | nil => simp [setItem, getItem]
  | cons kv rest ih =>
      obtain ⟨k₂, v₂⟩ := kv
      by_cases h : k₂ = k
      · simp [setItem, getItem, h]
      · simp [setItem, getItem, h, ih]

theorem getItem_setItem_of_ne (s : List (String × Json)) (k₁ k₂ : String)
    (v : Json) (h : k₁ ≠ k₂) :
    getItem (setItem s k₁ v) k₂ = getItem s k₂ := by
  induction s with
  | nil => simp [setItem, getItem, h]
  | cons kv rest ih =>
      obtain ⟨k₃, v₃⟩ := kv
      by_cases h₃ : k₃ = k₁
      · subst h₃
        simp [setItem, getItem, h]
      · simp [setItem, getItem, h₃, ih]

theorem decodeTrack_encodeTrack (t : Track) :
    decodeTrack (encodeTrack t) = some t := by
  obtain ⟨i, n, fn, src, dur⟩ := t
  cases src <;> rfl

theorem decodeTracks_map_encode (l : List Track) :
    decodeTracks (l.map encodeTrack) = some l := by
  induction l with
  | nil => rfl
  | cons t ts ih => simp [decodeTracks, decodeTrack_encodeTrack, ih]

theorem decodePlaylist_encodePlaylist (l : List Track) :
    decodePlaylist (encodePlaylist l) = some l := by
  simp [decodePlaylist, encodePlaylist, decodeTracks_map_encode]

theorem construct_playlist (s : List (String × Json)) :
    (MusicPlayer.construct s).playlist =
      (match getItem s primaryKey with
       | some j => (decodePlaylist j).getD []
       | Option.none => []) := by
  unfold MusicPlayer.construct MusicPlayer.loadPlaylist
  cases getItem s primaryKey with
  | none => rfl
  | some j => cases h : decodePlaylist j <;> simp [h]

end Pomop

namespace Pomop

/-- C1 counterexample: with a web-mode handle whose read fails with the
underlying message "boom", `addTrack` rejects with the fixed message
"Failed to read file" — the underlying read error's message is not
preserved (the state is otherwise unchanged, as the claim says). -/
theorem C1_counterexample :
    (emptyPlayer.addTrack fileB 0 0 (Except.error ("boom")) true true).2
        = Except.error ("Failed to read file") ∧
    ¬ ((("Failed to read file") : String) = ("boom")) ∧
    (emptyPlayer.addTrack fileB 0 0 (Except.error ("boom")) true true).1
        = emptyPlayer :=
  ⟨rfl, by decide, rfl⟩

/-- C1 amended: when the read inside `addTrack` fails, the returned promise
is rejected with the fixed message "Failed to read file" (the underlying
error's message is discarded), the whole player state — in particular the
playlist length and the event log — is unchanged, so no `trackadded` is
emitted. -/
theorem C1_read_failure_rejects (p : MusicPlayer) (file : FileHandle)
    (now : Nat) (rand : ℚ) (msg : String) (primaryOk metaOk : Bool)
    (hp : file.path = Option.none) :
    p.addTrack file now rand (Except.error msg) primaryOk metaOk
      = (p, Except.error ("Failed to read file")) := by
  unfold MusicPlayer.addTrack
  rw [hp]

/-- C1 witness: the amended theorem applied to a concrete failing read. -/
theorem C1_read_failure_rejects_witness :
    emptyPlayer.addTrack fileB 0 0 (Except.error ("boom")) true true
      = (emptyPlayer, Except.error ("Failed to read file")) :=
  C1_read_failure_rejects emptyPlayer fileB 0 0 ("boom") true true rfl

/-- C2 counterexample: two `addTrack` calls in the same instant
(`Date.now()` = 0 for both) whose `Math.random()` draws coincide (both 0)
produce two tracks with the identical id 0, so the playlist does contain
two entries with the same id. -/
theorem C2_counterexample :
    ((((emptyPlayer.addTrack fileA 0 0 (Except.ok ("")) true true).1.addTrack
        fileA 0 0 (Except.ok ("")) true true).1).playlist.map Track.id)
      = [0, 0] ∧
    ¬ ((((emptyPlayer.addTrack fileA 0 0 (Except.ok ("")) true true).1.addTrack
        fileA 0 0 (Except.ok ("")) true true).1).playlist.map Track.id).Nodup :=
  ⟨by with_unfolding_all decide, by with_unfolding_all decide⟩

/-- C2 amended: the id of a newly constructed track is exactly
`Date.now() + Math.random()`; a call of `addTrack` preserves the
no-duplicate-id invariant provided that sum differs from every id already
in the list. Distinguishability is therefore conditional on the random
tiebreaker: two adds in the same instant with equal draws collide. -/
theorem C2_fresh_id_nodup (p : MusicPlayer) (file : FileHandle) (now : Nat)
    (rand : ℚ) (readResult : Except String String) (primaryOk metaOk : Bool)
    (hfresh : ((now : ℚ) + rand) ∉ p.playlist.map Track.id)
    (hnd : (p.playlist.map Track.id).Nodup) :
    (((p.addTrack file now rand readResult primaryOk metaOk).1).playlist.map
        Track.id).Nodup := by
  unfold MusicPlayer.addTrack
  cases hfp : file.path with
  | some fp =>
      simp only [MusicPlayer.emit, savePlaylist_playlist]
      simp only [List.map_append, List.map_cons, List.map_nil]
      rw [List.nodup_append]
      refine ⟨hnd, List.nodup_singleton _, ?_⟩
      intro x hx hx₂
      simp only [List.mem_singleton] at hx₂
      subst hx₂
      exact hfresh hx
  | none =>
      cases readResult with
      | ok dataUrl =>
          simp only [MusicPlayer.emit, savePlaylist_playlist]
          simp only [List.map_append, List.map_cons, List.map_nil]
          rw [List.nodup_append]
          refine ⟨hnd, List.nodup_singleton _, ?_⟩
          intro x hx hx₂
          simp only [List.mem_singleton] at hx₂
          subst hx₂
          exact hfresh hx
      | error e => simpa using hnd

/-- C2 witness: the amended theorem applied to an add over the empty
playlist with a fresh id. -/
theorem C2_fresh_id_nodup_witness :
    (((emptyPlayer.addTrack fileA 1 0 (Except.ok ("")) true true).1).playlist.map
        Track.id).Nodup :=
  C2_fresh_id_nodup emptyPlayer fileA 1 0 (Except.ok ("")) true true
    (by with_unfolding_all decide) (by with_unfolding_all decide)

end Pomop

namespace Pomop

/-- C3: removing the currently-playing track by its id stops playback first
(cursor reset to the -1 sentinel, `isPlaying` false) whatever position the
track has, and the later cursor-decrement step (`currentTrackIndex > index`)
does not fire on the sentinel, so after the call the cursor is still -1 and
playback is stopped. The playlist is assumed to satisfy the spec's
no-duplicate-id invariant so that the `findIndex` lookup returns the playing
track's own position. -/
theorem C3_remove_current_track_stops (p : MusicPlayer) (i : Nat)
    (hi : i < p.playlist.length) (hnd : (p.playlist.map Track.id).Nodup)
    (hcur : p.currentTrackIndex = (i : Int)) (primaryOk metaOk : Bool) :
    (p.removeTrack (p.playlist.get ⟨i, hi⟩).id primaryOk metaOk).currentTrackIndex
        = -1 ∧
    (p.removeTrack (p.playlist.get ⟨i, hi⟩).id primaryOk metaOk).isPlaying
        = false := by
  have hfi := findIndex_get_of_nodup p.playlist i hi hnd
  have h₁ : ¬ ((i : Int) = -1) := by omega
  simp only [MusicPlayer.removeTrack, hfi, MusicPlayer.stop, MusicPlayer.emit,
    hcur, if_neg h₁, if_pos rfl]
  have h₂ : ¬ ((-1 : Int) > (i : Int)) := by omega
  simp [h₂, savePlaylist_currentTrackIndex, savePlaylist_isPlaying]

/-- C3 witness: removing the currently-playing second track of the sample
player leaves the cursor at -1 with playback stopped. -/
theorem C3_remove_current_track_stops_witness :
    (samplePlayer.removeTrack (samplePlayer.playlist.get ⟨1, by decide⟩).id
        true true).currentTrackIndex = -1 ∧
    (samplePlayer.removeTrack (samplePlayer.playlist.get ⟨1, by decide⟩).id
        true true).isPlaying = false :=
  C3_remove_current_track_stops samplePlayer 1 (by decide)
    (by with_unfolding_all decide) (by decide) true true

/-- C4: with shuffle off and the cursor at the last index, `next()` wraps
the cursor to 0 under repeat-all; under repeat none/one it calls `stop()`,
leaving the cursor at -1, playback stopped, and only a `stop` event emitted
(no `trackchange`, so it does not advance). -/
theorem C4_next_at_last_index (p : MusicPlayer) (randIndex : Nat)
    (playErr : Option String) (hne : p.playlist ≠ [])
    (hsh : p.shuffle = false)
    (hcur : p.currentTrackIndex = (p.playlist.length : Int) - 1) :
    (p.repeatMode = RepeatMode.all →
        (p.next randIndex playErr).currentTrackIndex = 0) ∧
    (p.repeatMode ≠ RepeatMode.all →
        (p.next randIndex playErr).currentTrackIndex = -1 ∧
        (p.next randIndex playErr).isPlaying = false ∧
        (p.next randIndex playErr).events = p.events ++ [Event.stop]) := by
  have hlen : 0 < p.playlist.length := List.length_pos.mpr hne
  have hlen0 : ¬ (p.playlist.length = 0) := by omega
  have hover : (p.playlist.length : Int) ≤ p.currentTrackIndex + 1 := by omega
  constructor
  · intro hall
    have hguard : ¬ (((0:Int) < 0) ∨ ((p.playlist.length : Int) ≤ (0:Int))) := by
      push_neg
      omega
    have hsome : p.playlist[(0:Nat)]? = some (p.playlist.get ⟨0, hlen⟩) := by
      rw [List.getElem?_eq_getElem hlen]
      simp
    simp only [MusicPlayer.next, hlen0, if_false, hsh, Bool.false_eq_true,
      hover, if_true, hall, MusicPlayer.playTrack, hguard, Int.toNat_zero,
      hsome]
  · intro hnall
    have hnall' : ¬ (p.repeatMode = RepeatMode.all) := hnall
    simp only [MusicPlayer.next, hlen0, if_false, hsh, Bool.false_eq_true,
      hover, if_true, hnall', MusicPlayer.stop, MusicPlayer.emit]
    simp

/-- C4 witness: the theorem applied to the sample player (cursor at the
last index) under repeat-all, and to its repeat-none variant. -/
theorem C4_next_at_last_index_witness :
    (samplePlayer.next 0 Option.none).currentTrackIndex = 0 ∧
    (({ samplePlayer with repeatMode := RepeatMode.none }).next 0
        Option.none).currentTrackIndex = -1 :=
  ⟨(C4_next_at_last_index samplePlayer 0 Option.none (by decide) rfl
      (by decide)).1 rfl,
   ((C4_next_at_last_index { samplePlayer with repeatMode := RepeatMode.none }
      0 Option.none (by decide) rfl (by decide)).2 (by decide)).1⟩

end Pomop

namespace Pomop

/-- C5: with at most 3 seconds elapsed and the cursor at index 0,
`previous()` moves the cursor to the last index under repeat-all; under any
other repeat mode it keeps the cursor at 0 and does not stop playback (no
`stop` event is emitted — `previous` clamps instead of stopping, unlike
`next`'s overflow case). -/
theorem C5_previous_at_index_zero (p : MusicPlayer) (playErr : Option String)
    (hne : p.playlist ≠ []) (ht : p.audioCurrentTime ≤ 3)
    (hcur : p.currentTrackIndex = 0) :
    (p.repeatMode = RepeatMode.all →
        (p.previous playErr).currentTrackIndex
          = (p.playlist.length : Int) - 1) ∧
    (p.repeatMode ≠ RepeatMode.all →
        (p.previous playErr).currentTrackIndex = 0 ∧
        Event.stop ∉ (p.previous playErr).events.drop p.events.length) := by
  have hlen : 0 < p.playlist.length := List.length_pos.mpr hne
  have hlen0 : ¬ (p.playlist.length = 0) := by omega
  have ht' : ¬ (3 < p.audioCurrentTime) := not_lt.mpr ht
  have hunder : p.currentTrackIndex - 1 < 0 := by omega
  constructor
  · intro hall
    have hguard : ¬ (((p.playlist.length : Int) - 1 < 0)
        ∨ ((p.playlist.length : Int) ≤ (p.playlist.length : Int) - 1)) := by
      push_neg
      omega
    have htn : ((p.playlist.length : Int) - 1).toNat
        = p.playlist.length - 1 := by omega
    have hsome : p.playlist[p.playlist.length - 1]?
        = some (p.playlist.get ⟨p.playlist.length - 1, Nat.sub_lt hlen Nat.one_pos⟩) := by
      rw [List.getElem?_eq_getElem (Nat.sub_lt hlen Nat.one_pos)]
      simp
    simp only [MusicPlayer.previous, hlen0, if_false, ht', hunder, if_true,
      hall, MusicPlayer.playTrack, hguard, htn, hsome]
  · intro hnall
    have hnall' : ¬ (p.repeatMode = RepeatMode.all) := hnall
    have hguard : ¬ (((0:Int) < 0) ∨ ((p.playlist.length : Int) ≤ (0:Int))) := by
      push_neg
      omega
    have hsome : p.playlist[(0:Nat)]? = some (p.playlist.get ⟨0, hlen⟩) := by
      rw [List.getElem?_eq_getElem hlen]
      simp
    simp only [MusicPlayer.previous, hlen0, if_false, ht', hunder, if_true,
      hnall', MusicPlayer.playTrack, hguard, Int.toNat_zero, hsome]
    refine ⟨trivial, ?_⟩
    rw [List.append_assoc, List.drop_left]
    cases playErr <;> simp [MusicPlayer.playOutcomeEvents]

/-- C5 witness: the theorem applied to the sample player with cursor 0
under repeat-all, and to its repeat-one variant. -/
theorem C5_previous_at_index_zero_witness :
    (({ samplePlayer with currentTrackIndex := 0 }).previous
        Option.none).currentTrackIndex = 1 ∧
    (({ samplePlayer with currentTrackIndex := 0, repeatMode := RepeatMode.one }).previous
        Option.none).currentTrackIndex = 0 :=
  ⟨(C5_previous_at_index_zero { samplePlayer with currentTrackIndex := 0 }
      Option.none (by decide) (by decide) rfl).1 rfl,
   ((C5_previous_at_index_zero
      { samplePlayer with currentTrackIndex := 0, repeatMode := RepeatMode.one }
      Option.none (by decide) (by decide) rfl).2 (by decide)).1⟩

/-- C6: for a valid index, `playTrack` appends exactly a `trackchange`
event carrying that track and index followed by the events of the play
outcome — so `trackchange` is emitted unconditionally and precedes any
`error` event of a rejected play — and the cursor and the assigned audio
source keep their new values even when playback is rejected (no
rollback). -/
theorem C6_playTrack_trackchange_no_rollback (p : MusicPlayer)
    (playErr : Option String) (i : Nat) (hi : i < p.playlist.length) :
    (p.playTrack (i : Int) playErr).events
        = p.events ++ [Event.trackchange (p.playlist.get ⟨i, hi⟩) i]
          ++ MusicPlayer.playOutcomeEvents playErr ∧
    (p.playTrack (i : Int) playErr).currentTrackIndex = (i : Int) ∧
    (p.playTrack (i : Int) playErr).audioSrc
        = some ((p.playlist.get ⟨i, hi⟩).source.src) := by
  have hguard : ¬ (((i : Int) < 0) ∨ ((p.playlist.length : Int) ≤ (i : Int))) := by
    push_neg
    omega
  have hsome : p.playlist[i]? = some (p.playlist.get ⟨i, hi⟩) := by
    rw [List.getElem?_eq_getElem hi]
    simp
  simp only [MusicPlayer.playTrack, hguard, if_false, Int.toNat_ofNat, hsome]
  exact ⟨trivial, trivial, trivial⟩

/-- C6 witness: playing track 0 of the sample player with a rejected play
outcome. -/
theorem C6_playTrack_trackchange_no_rollback_witness :
    (samplePlayer.playTrack ((0:Nat) : Int) (some ("boom"))).events
        = samplePlayer.events
          ++ [Event.trackchange (samplePlayer.playlist.get ⟨0, by decide⟩) 0]
          ++ MusicPlayer.playOutcomeEvents (some ("boom")) ∧
    (samplePlayer.playTrack ((0:Nat) : Int) (some ("boom"))).currentTrackIndex
        = ((0:Nat) : Int) ∧
    (samplePlayer.playTrack ((0:Nat) : Int) (some ("boom"))).audioSrc
        = some ((samplePlayer.playlist.get ⟨0, by decide⟩).source.src) :=
  C6_playTrack_trackchange_no_rollback samplePlayer (some ("boom")) 0
    (by decide)

/-- C8: with the cursor at the -1 sentinel, a non-empty playlist and at most
3 seconds elapsed, `previous()` is not a no-op: the sentinel minus one takes
the underflow branch, so it plays the last track under repeat-all and track
0 otherwise, emitting a `trackchange` either way. -/
theorem C8_previous_from_sentinel_plays (p : MusicPlayer)
    (playErr : Option String) (hlen : 0 < p.playlist.length)
    (ht : p.audioCurrentTime ≤ 3) (hcur : p.currentTrackIndex = -1) :
    (p.repeatMode = RepeatMode.all →
        (p.previous playErr).currentTrackIndex = (p.playlist.length : Int) - 1 ∧
        Event.trackchange
            (p.playlist.get ⟨p.playlist.length - 1, Nat.sub_lt hlen Nat.one_pos⟩)
            (p.playlist.length - 1) ∈ (p.previous playErr).events) ∧
    (p.repeatMode ≠ RepeatMode.all →
        (p.previous playErr).currentTrackIndex = 0 ∧
        Event.trackchange (p.playlist.get ⟨0, hlen⟩) 0
          ∈ (p.previous playErr).events) := by
  have hlen0 : ¬ (p.playlist.length = 0) := by omega
  have ht' : ¬ (3 < p.audioCurrentTime) := not_lt.mpr ht
  have hunder : p.currentTrackIndex - 1 < 0 := by omega
  constructor
  · intro hall
    have hguard : ¬ (((p.playlist.length : Int) - 1 < 0)
        ∨ ((p.playlist.length : Int) ≤ (p.playlist.length : Int) - 1)) := by
      push_neg
      omega
    have htn : ((p.playlist.length : Int) - 1).toNat
        = p.playlist.length - 1 := by omega
    have hsome : p.playlist[p.playlist.length - 1]?
        = some (p.playlist.get ⟨p.playlist.length - 1, Nat.sub_lt hlen Nat.one_pos⟩) := by
      rw [List.getElem?_eq_getElem (Nat.sub_lt hlen Nat.one_pos)]
      simp
    simp only [MusicPlayer.previous, hlen0, if_false, ht', hunder, if_true,
      hall, MusicPlayer.playTrack, hguard, htn, hsome]
    refine ⟨?_, ?_⟩ <;> first | trivial | rfl | simp
  · intro hnall
    have hnall' : ¬ (p.repeatMode = RepeatMode.all) := hnall
    have hguard : ¬ (((0:Int) < 0) ∨ ((p.playlist.length : Int) ≤ (0:Int))) := by
      push_neg
      omega
    have hsome : p.playlist[(0:Nat)]? = some (p.playlist.get ⟨0, hlen⟩) := by
      rw [List.getElem?_eq_getElem hlen]
      simp
    simp only [MusicPlayer.previous, hlen0, if_false, ht', hunder, if_true,
      hnall', MusicPlayer.playTrack, hguard, Int.toNat_zero, hsome]
    refine ⟨?_, ?_⟩ <;> first | trivial | rfl | simp

/-- C8 witness: the theorem applied to the sample player with the cursor at
the sentinel under repeat-all, and to its repeat-none variant. -/
theorem C8_previous_from_sentinel_plays_witness :
    (({ samplePlayer with currentTrackIndex := -1 }).previous
        Option.none).currentTrackIndex = 1 ∧
    (({ samplePlayer with currentTrackIndex := -1, repeatMode := RepeatMode.none }).previous
        Option.none).currentTrackIndex = 0 :=
  ⟨((C8_previous_from_sentinel_plays
      { samplePlayer with currentTrackIndex := -1 } Option.none (by decide)
      (by decide) rfl).1 rfl).1,
   ((C8_previous_from_sentinel_plays
      { samplePlayer with currentTrackIndex := -1, repeatMode := RepeatMode.none }
      Option.none (by decide) (by decide) rfl).2 (by decide)).1⟩

end Pomop

namespace Pomop

/-- C7: when the primary write succeeds (the fallback path does not fire),
`savePlaylist` followed by hydrating a fresh player (`loadPlaylist` at
construction) yields a playlist whose entries have identical ids, names,
fileNames and source representations, in the same order. -/
theorem C7_save_load_round_trip (p : MusicPlayer) (metaOk : Bool) :
    (MusicPlayer.construct (p.savePlaylist true metaOk).store).playlist.map
        Track.id = p.playlist.map Track.id ∧
    (MusicPlayer.construct (p.savePlaylist true metaOk).store).playlist.map
        Track.name = p.playlist.map Track.name ∧
    (MusicPlayer.construct (p.savePlaylist true metaOk).store).playlist.map
        Track.fileName = p.playlist.map Track.fileName ∧
    (MusicPlayer.construct (p.savePlaylist true metaOk).store).playlist.map
        Track.source = p.playlist.map Track.source := by
  have hstore : (p.savePlaylist true metaOk).store
      = setItem p.store primaryKey (encodePlaylist p.playlist) := by
    unfold MusicPlayer.savePlaylist
    rw [if_pos rfl]
  have hplaylist :
      (MusicPlayer.construct (p.savePlaylist true metaOk).store).playlist
        = p.playlist := by
    rw [hstore, construct_playlist, getItem_setItem_self]
    simp [decodePlaylist_encodePlaylist]
  rw [hplaylist]
  exact ⟨rfl, rfl, rfl, rfl⟩

/-- C9: the metadata-only fallback record is never read back. When the
primary write fails, the primary slot is unchanged, so hydrating a fresh
player from the resulting store gives exactly what hydrating from the old
store gives (the stale primary record, or an empty playlist when there is
none); and writing any value under the fallback key never changes what a
fresh player hydrates. -/
theorem C9_fallback_is_never_read (p : MusicPlayer) (metaOk : Bool) :
    getItem (p.savePlaylist false metaOk).store primaryKey
        = getItem p.store primaryKey ∧
    (MusicPlayer.construct (p.savePlaylist false metaOk).store).playlist
        = (MusicPlayer.construct p.store).playlist ∧
    (∀ (s : List (String × Json)) (v : Json),
        (MusicPlayer.construct (setItem s metaKey v)).playlist
          = (MusicPlayer.construct s).playlist) := by
  have hkeys : metaKey ≠ primaryKey := by decide
  have hprimary : getItem (p.savePlaylist false metaOk).store primaryKey
      = getItem p.store primaryKey := by
    unfold MusicPlayer.savePlaylist
    rw [if_neg (by simp)]
    cases metaOk with
    | false => simp
    | true =>
        rw [if_pos rfl]
        exact getItem_setItem_of_ne p.store metaKey primaryKey _ hkeys
  refine ⟨hprimary, ?_, ?_⟩
  · rw [construct_playlist, construct_playlist, hprimary]
  · intro s v
    rw [construct_playlist, construct_playlist,
      getItem_setItem_of_ne s metaKey primaryKey v hkeys]

/-- C10: `getPlaylist` returns a reference to a freshly allocated array
(distinct from the internal one) whose contents equal the internal
playlist, and writing through the returned reference leaves the array
behind the internal reference unchanged. -/
theorem C10_getPlaylist_fresh_copy (h : Heap) (r : Nat)
    (hr : r < h.cells.length) :
    (h.getPlaylist r).2 ≠ r ∧
    Heap.read (h.getPlaylist r).1 (h.getPlaylist r).2 = Heap.read h r ∧
    Heap.read (h.getPlaylist r).1 r = Heap.read h r ∧
    (∀ v, Heap.read (Heap.write (h.getPlaylist r).1 (h.getPlaylist r).2 v) r
        = Heap.read h r) := by
  refine ⟨?_, ?_, ?_, ?_⟩
  · simp only [Heap.getPlaylist, Heap.alloc]
    omega
  · simp only [Heap.getPlaylist, Heap.alloc, Heap.read,
      List.getD_eq_getElem?_getD, List.getElem?_concat_length]
    rfl
  · simp only [Heap.getPlaylist, Heap.alloc, Heap.read,
      List.getD_eq_getElem?_getD, List.getElem?_append_left hr]
  · intro v
    simp only [Heap.getPlaylist, Heap.alloc, Heap.write, Heap.read,
      List.getD_eq_getElem?_getD]
    rw [List.getElem?_set_ne (by omega), List.getElem?_append_left hr]

/-- C10 witness: the theorem applied to a one-cell heap. -/
theorem C10_getPlaylist_fresh_copy_witness :
    ((Heap.mk [[trackA]]).getPlaylist 0).2 ≠ 0 ∧
    Heap.read ((Heap.mk [[trackA]]).getPlaylist 0).1
        ((Heap.mk [[trackA]]).getPlaylist 0).2
      = Heap.read (Heap.mk [[trackA]]) 0 ∧
    Heap.read ((Heap.mk [[trackA]]).getPlaylist 0).1 0
      = Heap.read (Heap.mk [[trackA]]) 0 ∧
    Heap.read
        (Heap.write ((Heap.mk [[trackA]]).getPlaylist 0).1
          ((Heap.mk [[trackA]]).getPlaylist 0).2 [])
        0
      = Heap.read (Heap.mk [[trackA]]) 0 :=
  ⟨(C10_getPlaylist_fresh_copy (Heap.mk [[trackA]]) 0 (by decide)).1,
   (C10_getPlaylist_fresh_copy (Heap.mk [[trackA]]) 0 (by decide)).2.1,
   (C10_getPlaylist_fresh_copy (Heap.mk [[trackA]]) 0 (by decide)).2.2.1,
   (C10_getPlaylist_fresh_copy (Heap.mk [[trackA]]) 0 (by decide)).2.2.2 []⟩

end Pomop
